import Mathlib

/- Shallow embedding of src/main.py: a FastAPI backend that formats incoming
notification payloads and forwards them to the Telegram bot API.  Machine-level
details (HTTP transport, the event loop) are modelled by an explicit transport
function passed to each handler; every handler returns the HTTP response
together with the list of outbound Telegram requests it attempted. -/

namespace TNotif

/- JSON values, as produced by Python dict/list literals and `resp.json()`. -/
inductive Json where
  | null : Json
  | bool (b : Bool) : Json
  | num (n : Int) : Json
  | str (s : String) : Json
  | obj (fields : List (String × Json)) : Json

/- Process configuration, lines 27-30 of main.py: `os.getenv` returns the
variable's value, or None when unset, modelled as `Option String`. -/
structure Config where
  BOT_TOKEN_NEW_USER : Option String
  BOT_TOKEN_QR : Option String
  BOT_TOKEN_ORDER : Option String
  CHAT_ID : Option String

/- The environment keys read at startup (lines 27-30). -/
def botTokenEnvKeys : List String :=
  ["BOT_TOKEN_NEW_USER", "BOT_TOKEN_QR", "BOT_TOKEN_ORDER"]

def loadConfig (env : String → Option String) : Config :=
  { BOT_TOKEN_NEW_USER := env "BOT_TOKEN_NEW_USER"
    BOT_TOKEN_QR := env "BOT_TOKEN_QR"
    BOT_TOKEN_ORDER := env "BOT_TOKEN_ORDER"
    CHAT_ID := env "CHAT_ID" }

/- Python truthiness of an optional string: None and the empty string are
falsy, any other string is truthy (used by `if not bot_token or not chat_id`). -/
def truthy : Option String → Bool
  | none => false
  | some s => !(s == "")

/- The outbound request issued by `send_telegram` (url, and the JSON payload
fields chat_id / text / parse_mode). -/
structure TelegramRequest where
  url : String
  chat_id : String
  text : String
  parse_mode : String

/- Result of one outbound `client.post`: either an HTTP response (status,
`resp.text`, `resp.json()`) or a transport-level exception with `str(e)`. -/
inductive TransportResult where
  | response (status : Nat) (bodyText : String) (bodyJson : Json)
  | exn (msg : String)

/- send_telegram (lines 71-92).  An HTTPException is modelled as
`Except.error (status_code, detail)`.  The second component of the result is
the list of outbound requests that were attempted. -/
def send_telegram (bot_token chat_id : Option String) (text : String)
    (parse_mode : String) (transport : TelegramRequest → TransportResult) :
    Except (Nat × String) Json × List TelegramRequest :=
  if truthy bot_token = false ∨ truthy chat_id = false then
    (Except.error (500, "Missing Telegram credentials"), [])
  else
    let url := "https://api.telegram.org/bot" ++ bot_token.getD "" ++ "/sendMessage"
    let req : TelegramRequest :=
      { url := url, chat_id := chat_id.getD "", text := text, parse_mode := parse_mode }
    match transport req with
    | TransportResult.response status bodyText bodyJson =>
        -- resp.raise_for_status() raises HTTPStatusError for any non-2xx status
        if 200 ≤ status ∧ status < 300 then (Except.ok bodyJson, [req])
        else (Except.error (502, "Telegram API error: " ++ bodyText), [req])
    | TransportResult.exn msg =>
        (Except.error (500, "Unexpected error: " ++ msg), [req])

/- Pydantic request models (lines 33-68). -/
structure NewUserNotification where
  username : String
  mobile : String
  ip : String
  profile_status : String

structure QRPaymentStarted where
  username : String
  mobile : String
  package : String
  amount : String
  ip : String
  is_special : Bool

structure PaymentStarted where
  username : String
  mobile : String
  package : String
  amount : String
  ip : String
  method : String

structure PaymentTimeEnded where
  username : String
  mobile : String
  package : String
  amount : String
  ip : String
  method : String

structure OrderNotification where
  username : String
  mobile : String
  package : String
  price : Int
  ip : String

/- Python `s or fallback` on strings: the fallback is used exactly when `s`
is empty. -/
def pyOr (s fallback : String) : String := if s == "" then fallback else s

/- The `text` local of notify_new_user (lines 107-113). -/
def newUserText (d : NewUserNotification) : String :=
  "🔔 New User Submitted\n👤 Username: " ++
    (d.username ++
      ("\n📱 Mobile: " ++
        (d.mobile ++
          ("\n🌐 IP: " ++
            (d.ip ++
              ("\n📊 Status: " ++ d.profile_status))))))

/- The `text` local of notify_qr_payment_started (lines 123-132), with
`special_text` inlined as in line 123. -/
def qrPaymentText (d : QRPaymentStarted) : String :=
  "📲 <b>QR PAYMENT STARTED 🎉</b>\n👤 Username: <code>" ++
    (pyOr d.username "Unknown" ++
      ("</code>\n📱 Mobile: <code>" ++
        (pyOr d.mobile "Not Provided" ++
          ("</code>\n📦 Package: <code>" ++
            (d.package ++
              ("</code>\n💰 Amount: <code>" ++
                (d.amount ++
                  ("</code>\n🌐 IP: <code>" ++
                    (d.ip ++
                      ("</code>\n💎 Special User: <b>" ++
                        ((if d.is_special then "YES" else "NO") ++ "</b>")))))))))))

/- The `text` local of notify_payment_started (lines 142-150). -/
def paymentStartedText (d : PaymentStarted) : String :=
  "💳 <b>New UPI PAYMENT STARTED 🎉</b>\n\n👤 Username: <code>" ++
    (d.username ++
      ("</code>\n📱 Mobile: <code>" ++
        (pyOr d.mobile "Not Provided" ++
          ("</code>\n📦 Package: <code>" ++
            (d.package ++
              ("</code>\n💰 Amount: <code>₹" ++
                (d.amount ++
                  ("</code>\n🏦 Payment Method: <b>" ++
                    (d.method ++
                      ("</b>\n🌐 IP: <code>" ++
                        (d.ip ++ "</code>")))))))))))

/- The `text` local of notify_payment_time_ended (lines 160-168). -/
def paymentTimeEndedText (d : PaymentTimeEnded) : String :=
  "⚠️ <b>PAYMENT TIME ENDED</b>\n\n👤 Username: <code>" ++
    (d.username ++
      ("</code>\n📱 Mobile: <code>" ++
        (pyOr d.mobile "Not Provided" ++
          ("</code>\n📦 Package: <code>" ++
            (d.package ++
              ("</code>\n💰 Amount: <code>₹" ++
                (d.amount ++
                  ("</code>\n🏦 Payment Method: <b>" ++
                    (d.method ++
                      ("</b>\n🌐 IP: <code>" ++
                        (d.ip ++ "</code>")))))))))))

/- The `text` local of notify_order (lines 178-185). -/
def orderText (d : OrderNotification) : String :=
  "🛒 <b>New Purchase Request</b>\n\n👤 Username: <code>" ++
    (d.username ++
      ("</code>\n📱 Mobile: <code>" ++
        (pyOr d.mobile "Not Provided" ++
          ("</code>\n📦 Package: " ++
            (d.package ++
              ("\n💰 Amount: ₹" ++
                (toString d.price ++
                  ("\n🌐 IP: " ++ d.ip))))))))

/- Comparison-side definition for the payment-started / payment-time-ended
pair: the part both message texts share after their first (header) line. -/
def paymentSharedTail (u m p a i me : String) : String :=
  "\n\n👤 Username: <code>" ++
    (u ++
      ("</code>\n📱 Mobile: <code>" ++
        (pyOr m "Not Provided" ++
          ("</code>\n📦 Package: <code>" ++
            (p ++
              ("</code>\n💰 Amount: <code>₹" ++
                (a ++
                  ("</code>\n🏦 Payment Method: <b>" ++
                    (me ++
                      ("</b>\n🌐 IP: <code>" ++
                        (i ++ "</code>")))))))))))

/- FastAPI responses visible to the caller: a 200 JSON response, an
HTTPException (status + detail), or the automatic 422 produced by pydantic
when the request body does not match the declared model. -/
inductive Response where
  | ok (body : Json)
  | httpError (status : Nat) (detail : String)
  | validationError

/- The success payload shared by all five endpoints:
`{"success": True, "telegram_response": result}`. -/
def successBody (j : Json) : Json :=
  Json.obj [("success", Json.bool true), ("telegram_response", j)]

/- Wraps the result of send_telegram the way FastAPI does: a normal return
becomes the 200 payload, a raised HTTPException becomes an error response. -/
def wrapResult : Except (Nat × String) Json × List TelegramRequest →
    Response × List TelegramRequest
  | (Except.ok j, calls) => (Response.ok (successBody j), calls)
  | (Except.error e, calls) => (Response.httpError e.1 e.2, calls)

/- health_check (lines 96-99).  The handler reads neither the configuration
nor the network; both are passed only for uniformity with the other handlers. -/
def health_check (_cfg : Config) (_transport : TelegramRequest → TransportResult) :
    Response × List TelegramRequest :=
  (Response.ok (Json.obj [("status", Json.str "ok"), ("service", Json.str "Telegram Notifier")]), [])

/- notify_new_user (lines 101-115); parse_mode defaults to "HTML" in
send_telegram's signature. -/
def notify_new_user (cfg : Config) (data : NewUserNotification)
    (transport : TelegramRequest → TransportResult) : Response × List TelegramRequest :=
  wrapResult (send_telegram cfg.BOT_TOKEN_NEW_USER cfg.CHAT_ID (newUserText data) "HTML" transport)

/- notify_qr_payment_started (lines 117-134). -/
def notify_qr_payment_started (cfg : Config) (data : QRPaymentStarted)
    (transport : TelegramRequest → TransportResult) : Response × List TelegramRequest :=
  wrapResult (send_telegram cfg.BOT_TOKEN_QR cfg.CHAT_ID (qrPaymentText data) "HTML" transport)

/- notify_payment_started (lines 136-152). -/
def notify_payment_started (cfg : Config) (data : PaymentStarted)
    (transport : TelegramRequest → TransportResult) : Response × List TelegramRequest :=
  wrapResult (send_telegram cfg.BOT_TOKEN_QR cfg.CHAT_ID (paymentStartedText data) "HTML" transport)

/- notify_payment_time_ended (lines 154-170). -/
def notify_payment_time_ended (cfg : Config) (data : PaymentTimeEnded)
    (transport : TelegramRequest → TransportResult) : Response × List TelegramRequest :=
  wrapResult (send_telegram cfg.BOT_TOKEN_QR cfg.CHAT_ID (paymentTimeEndedText data) "HTML" transport)

/- notify_order (lines 172-187). -/
def notify_order (cfg : Config) (data : OrderNotification)
    (transport : TelegramRequest → TransportResult) : Response × List TelegramRequest :=
  wrapResult (send_telegram cfg.BOT_TOKEN_ORDER cfg.CHAT_ID (orderText data) "HTML" transport)

/- Body parsing, modelling FastAPI's pydantic validation of the declared
request model: a JSON object body is accepted exactly when every declared
field is present with the declared primitive type; otherwise FastAPI returns
the automatic 422 validation error before the handler body runs. -/

def jLookup (body : List (String × Json)) (k : String) : Option Json :=
  match body with
  | [] => none
  | (k2, v) :: rest => if k2 == k then some v else jLookup rest k

def getStr (body : List (String × Json)) (k : String) : Option String :=
  match jLookup body k with
  | some (Json.str s) => some s
  | _ => none

def getBool (body : List (String × Json)) (k : String) : Option Bool :=
  match jLookup body k with
  | some (Json.bool b) => some b
  | _ => none

/- Validation of a QRPaymentStarted body (lines 39-45): all six fields are
required, so a body missing any of them is rejected with 422. -/
def parseQRPaymentStarted (body : List (String × Json)) : Option QRPaymentStarted :=
  match getStr body "username", getStr body "mobile", getStr body "package",
      getStr body "amount", getStr body "ip", getBool body "is_special" with
  | some u, some m, some p, some a, some i, some sp =>
      some { username := u, mobile := m, package := p, amount := a, ip := i, is_special := sp }
  | _, _, _, _, _, _ => none

/- The qr-payment-started route as seen from the wire: pydantic validation of
the raw body, then the handler. -/
def handle_qr_payment_started_raw (cfg : Config) (body : List (String × Json))
    (transport : TelegramRequest → TransportResult) : Response × List TelegramRequest :=
  match parseQRPaymentStarted body with
  | none => (Response.validationError, [])
  | some d => notify_qr_payment_started cfg d transport

/- A stub transport that answers 200 and echoes the full outbound request
back as the JSON body, used to observe which credentials and rendering mode
each endpoint sends. -/
def probeFull : TelegramRequest → TransportResult :=
  fun r => TransportResult.response 200 ""
    (Json.obj [("url", Json.str r.url), ("chat_id", Json.str r.chat_id),
      ("parse_mode", Json.str r.parse_mode), ("text", Json.str r.text)])

/- Substring machinery over the character lists underlying String. -/

/- True when `pat` occurs (as a contiguous substring) somewhere in `s`. -/
def occurs (pat : List Char) : List Char → Bool
  | [] => pat.isEmpty
  | c :: rest => pat.isPrefixOf (c :: rest) || occurs pat rest

/- Number of positions of `s` at which `pat` matches. -/
def countOcc (pat : List Char) : List Char → Nat
  | [] => if pat.isEmpty then 1 else 0
  | c :: rest => (if pat.isPrefixOf (c :: rest) then 1 else 0) + countOcc pat rest

def strContains (s pat : String) : Bool := occurs pat.data s.data

def strCount (s pat : String) : Nat := countOcc pat.data s.data

theorem strData_append (s t : String) : (s ++ t).data = s.data ++ t.data := rfl

theorem strExt (a b : String) (h : a.data = b.data) : a = b := by
  cases a; cases b; cases h; rfl

theorem occurs_nil_pat (s : List Char) : occurs [] s = true := by
  cases s <;> simp [occurs, List.isEmpty, List.isPrefixOf]

theorem isPrefixOf_self_append (p t : List Char) : p.isPrefixOf (p ++ t) = true := by
  induction p with
  | nil => simp [List.isPrefixOf]
  | cons c p2 ih => simp [List.isPrefixOf, ih]

theorem occurs_self_append (p b : List Char) : occurs p (p ++ b) = true := by
  cases p with
  | nil => exact occurs_nil_pat b
  | cons c p2 =>
      show occurs (c :: p2) (c :: (p2 ++ b)) = true
      simp [occurs, isPrefixOf_self_append (c :: p2) b]

theorem occurs_append_left (p a b : List Char) (h : occurs p b = true) :
    occurs p (a ++ b) = true := by
  induction a with
  | nil => simpa using h
  | cons c a2 ih => simp [occurs, ih]

theorem countOcc_nil (pat : List Char) (hp : pat ≠ []) : countOcc pat [] = 0 := by
  cases pat with
  | nil => exact absurd rfl hp
  | cons c p2 => rfl

/- A match of `pat` crossing from `a` into `c :: b2` would have to contain the
first character `c` of the right part; if `c` is not a character of `pat`,
prefix matching cannot see past `a`. -/
theorem isPrefixOf_append_head (c : Char) (b2 : List Char) :
    ∀ (a pat : List Char), c ∉ pat →
      pat.isPrefixOf (a ++ (c :: b2)) = pat.isPrefixOf a := by
  intro a
  induction a with
  | nil =>
      intro pat hc
      cases pat with
      | nil => simp [List.isPrefixOf]
      | cons q p2 =>
          have hqc : ¬ (q = c) := fun h => hc (by simp [h])
          simp [List.isPrefixOf, hqc]
  | cons x a2 ih =>
      intro pat hc
      cases pat with
      | nil => simp [List.isPrefixOf]
      | cons q p2 =>
          have hc2 : c ∉ p2 := fun h => hc (List.mem_cons_of_mem q h)
          show ((q == x) && p2.isPrefixOf (a2 ++ (c :: b2))) = ((q == x) && p2.isPrefixOf a2)
          rw [ih p2 hc2]

theorem countOcc_append_head (pat : List Char) (hp : pat ≠ []) (c : Char)
    (hc : c ∉ pat) (b2 : List Char) :
    ∀ a, countOcc pat (a ++ (c :: b2)) = countOcc pat a + countOcc pat (c :: b2) := by
  intro a
  induction a with
  | nil => rw [List.nil_append, countOcc_nil pat hp]; omega
  | cons x a2 ih =>
      show (if pat.isPrefixOf ((x :: a2) ++ (c :: b2)) then 1 else 0) + countOcc pat (a2 ++ (c :: b2))
          = ((if pat.isPrefixOf (x :: a2) then 1 else 0) + countOcc pat a2) + countOcc pat (c :: b2)
      rw [isPrefixOf_append_head c b2 (x :: a2) pat hc, ih]
      omega

/- Symmetrically, a match crossing out of `a0 ++ [c]` into `b` would have to
contain the final character `c` of the left part. -/
theorem isPrefixOf_append_snoc (c : Char) (b : List Char) :
    ∀ (a0 pat : List Char), c ∉ pat →
      pat.isPrefixOf ((a0 ++ [c]) ++ b) = pat.isPrefixOf (a0 ++ [c]) := by
  intro a0
  induction a0 with
  | nil =>
      intro pat hc
      cases pat with
      | nil => simp [List.isPrefixOf]
      | cons q p2 =>
          have hqc : (q == c) = false := by
            have h2 : ¬ (q = c) := fun h => hc (by simp [h])
            simp [h2]
          simp [List.isPrefixOf, hqc]
  | cons x a02 ih =>
      intro pat hc
      cases pat with
      | nil => simp [List.isPrefixOf]
      | cons q p2 =>
          have hc2 : c ∉ p2 := fun h => hc (List.mem_cons_of_mem q h)
          show ((q == x) && p2.isPrefixOf ((a02 ++ [c]) ++ b)) = ((q == x) && p2.isPrefixOf (a02 ++ [c]))
          rw [ih p2 hc2]

theorem countOcc_append_snoc (pat : List Char) (hp : pat ≠ []) (c : Char)
    (hc : c ∉ pat) (b : List Char) :
    ∀ a0, countOcc pat ((a0 ++ [c]) ++ b) = countOcc pat (a0 ++ [c]) + countOcc pat b := by
  intro a0
  induction a0 with
  | nil =>
      show (if pat.isPrefixOf (c :: b) then 1 else 0) + countOcc pat b
          = ((if pat.isPrefixOf [c] then 1 else 0) + countOcc pat []) + countOcc pat b
      cases pat with
      | nil => exact absurd rfl hp
      | cons q p2 =>
          have hqc : ¬ (q = c) := fun h => hc (by simp [h])
          simp [List.isPrefixOf, countOcc, hqc]
  | cons x a02 ih =>
      show (if pat.isPrefixOf ((x :: a02 ++ [c]) ++ b) then 1 else 0) + countOcc pat ((a02 ++ [c]) ++ b)
          = ((if pat.isPrefixOf (x :: a02 ++ [c]) then 1 else 0) + countOcc pat (a02 ++ [c])) + countOcc pat b
      rw [isPrefixOf_append_snoc c b (x :: a02) pat hc, ih]
      omega

/- Alternating field/template concatenation, the shape of every message text:
each pair is (field value, following template piece). -/
def fieldChain : List (List Char × List Char) → List Char
  | [] => []
  | (f, t) :: rest => f ++ (t ++ fieldChain rest)

def chainCount (pat : List Char) : List (List Char × List Char) → Nat
  | [] => 0
  | (f, t) :: rest => (countOcc pat f + countOcc pat t) + chainCount pat rest

/- If every template piece starts with a markup character and ends with one,
and the pattern contains no markup character, then no match of the pattern
can cross a field/template boundary, so occurrences add up segment-wise. -/
theorem countOcc_fieldChain (pat : List Char) (hp : pat ≠ [])
    (hlt : ('<' : Char) ∉ pat) (hgt : ('>' : Char) ∉ pat) :
    ∀ l : List (List Char × List Char),
      (∀ t ∈ l.map Prod.snd, ∃ mid, t = '<' :: (mid ++ ['>'])) →
      countOcc pat (fieldChain l) = chainCount pat l := by
  intro l
  induction l with
  | nil => intro _; exact countOcc_nil pat hp
  | cons ft rest ih =>
      intro hl
      obtain ⟨f, t⟩ := ft
      obtain ⟨mid, hmid⟩ := hl t (by simp)
      have hrest : ∀ t2 ∈ rest.map Prod.snd, ∃ mid2, t2 = '<' :: (mid2 ++ ['>']) :=
        fun t2 h2 => hl t2 (by rw [List.map_cons]; exact List.mem_cons_of_mem _ h2)
      show countOcc pat (f ++ (t ++ fieldChain rest))
          = (countOcc pat f + countOcc pat t) + chainCount pat rest
      subst hmid
      rw [show (('<' :: (mid ++ ['>'])) ++ fieldChain rest)
            = ('<' :: ((mid ++ ['>']) ++ fieldChain rest)) from rfl,
          countOcc_append_head pat hp '<' hlt _ f,
          show ('<' :: ((mid ++ ['>']) ++ fieldChain rest))
            = ((('<' :: mid) ++ ['>']) ++ fieldChain rest) from rfl,
          countOcc_append_snoc pat hp '>' hgt _ ('<' :: mid), ih hrest,
          show (('<' :: mid) ++ ['>']) = ('<' :: (mid ++ ['>'])) from rfl]
      omega

/- The template pieces of the QR message all start with '<' and end with '>'. -/
theorem qrTemplatesOk :
    ∀ t ∈ [String.data "</code>\n📱 Mobile: <code>",
           String.data "</code>\n📦 Package: <code>",
           String.data "</code>\n💰 Amount: <code>",
           String.data "</code>\n🌐 IP: <code>",
           String.data "</code>\n💎 Special User: <b>",
           String.data "</b>"],
      ∃ mid, t = '<' :: (mid ++ ['>']) := by
  intro t hft
  simp only [List.mem_cons, List.not_mem_nil, or_false] at hft
  rcases hft with h|h|h|h|h|h <;> subst h
  · exact ⟨String.data "/code>\n📱 Mobile: <code", by decide⟩
  · exact ⟨String.data "/code>\n📦 Package: <code", by decide⟩
  · exact ⟨String.data "/code>\n💰 Amount: <code", by decide⟩
  · exact ⟨String.data "/code>\n🌐 IP: <code", by decide⟩
  · exact ⟨String.data "/code>\n💎 Special User: <b", by decide⟩
  · exact ⟨String.data "/b", by decide⟩

/- The QR message text decomposed into its alternating field/template shape. -/
theorem qr_data_eq (u m p a i L : String) (sp : Bool)
    (hL : (if sp then "YES" else "NO") = L) :
    (qrPaymentText ⟨u, m, p, a, i, sp⟩).data =
      ((String.data "📲 <b>QR PAYMENT STARTED 🎉</b>\n👤 Username: <code") ++ ['>']) ++ fieldChain
        [((pyOr u "Unknown").data, String.data "</code>\n📱 Mobile: <code>"),
         ((pyOr m "Not Provided").data, String.data "</code>\n📦 Package: <code>"),
         (p.data, String.data "</code>\n💰 Amount: <code>"),
         (a.data, String.data "</code>\n🌐 IP: <code>"),
         (i.data, String.data "</code>\n💎 Special User: <b>"),
         (L.data, String.data "</b>")] := by
  subst hL
  cases sp <;> simp [qrPaymentText, strData_append, fieldChain]

/- String-level corollaries used for the substring claims. -/

theorem strContains_prepend (a : String) {s x : String} (h : strContains s x = true) :
    strContains (a ++ s) x = true := by
  unfold strContains at *
  rw [strData_append]
  exact occurs_append_left _ _ _ h

theorem strContains_here (x b : String) : strContains (x ++ b) x = true := by
  unfold strContains
  rw [strData_append]
  exact occurs_self_append _ _

theorem strContains_self (x : String) : strContains x x = true := by
  unfold strContains
  simpa using occurs_self_append x.data []

theorem strContains_empty (s : String) : strContains s "" = true := by
  unfold strContains
  exact occurs_nil_pat _

theorem strContains_pyOr_head {f : String} (fb b : String) :
    strContains (pyOr f fb ++ b) f = true := by
  by_cases h : f = ""
  · subst h; exact strContains_empty _
  · have e : pyOr f fb = f := by simp [pyOr, h]
    rw [e]; exact strContains_here f b

/- Claim theorems. -/

/-- C1: for every notify endpoint, if the endpoint's bot token or the chat
destination is unset/empty, the request fails with HTTP 500 and the fixed
detail "Missing Telegram credentials", and no outbound request is attempted
(the call list is empty), whatever the transport would have answered. -/
theorem c1_missing_credentials (cfg : Config) (t : TelegramRequest → TransportResult)
    (d1 : NewUserNotification) (d2 : QRPaymentStarted) (d3 : PaymentStarted)
    (d4 : PaymentTimeEnded) (d5 : OrderNotification) :
    (truthy cfg.BOT_TOKEN_NEW_USER = false ∨ truthy cfg.CHAT_ID = false →
      notify_new_user cfg d1 t = (Response.httpError 500 "Missing Telegram credentials", []))
    ∧ (truthy cfg.BOT_TOKEN_QR = false ∨ truthy cfg.CHAT_ID = false →
      notify_qr_payment_started cfg d2 t = (Response.httpError 500 "Missing Telegram credentials", [])
      ∧ notify_payment_started cfg d3 t = (Response.httpError 500 "Missing Telegram credentials", [])
      ∧ notify_payment_time_ended cfg d4 t = (Response.httpError 500 "Missing Telegram credentials", []))
    ∧ (truthy cfg.BOT_TOKEN_ORDER = false ∨ truthy cfg.CHAT_ID = false →
      notify_order cfg d5 t = (Response.httpError 500 "Missing Telegram credentials", [])) := by
  refine ⟨fun h => ?_, fun h => ⟨?_, ?_, ?_⟩, fun h => ?_⟩
  · unfold notify_new_user send_telegram
    rw [if_pos h]; rfl
  · unfold notify_qr_payment_started send_telegram
    rw [if_pos h]; rfl
  · unfold notify_payment_started send_telegram
    rw [if_pos h]; rfl
  · unfold notify_payment_time_ended send_telegram
    rw [if_pos h]; rfl
  · unfold notify_order send_telegram
    rw [if_pos h]; rfl

/-- Witness for C1: with every environment variable unset, each endpoint
answers 500 "Missing Telegram credentials" with no outbound call. -/
theorem c1_missing_credentials_witness :
    notify_new_user ⟨none, none, none, none⟩ ⟨"u", "m", "i", "s"⟩
      (fun _ => TransportResult.exn "boom")
      = (Response.httpError 500 "Missing Telegram credentials", [])
    ∧ notify_qr_payment_started ⟨none, none, none, none⟩ ⟨"u", "m", "p", "a", "i", true⟩
      (fun _ => TransportResult.exn "boom")
      = (Response.httpError 500 "Missing Telegram credentials", [])
    ∧ notify_payment_started ⟨none, none, none, none⟩ ⟨"u", "m", "p", "a", "i", "me"⟩
      (fun _ => TransportResult.exn "boom")
      = (Response.httpError 500 "Missing Telegram credentials", [])
    ∧ notify_payment_time_ended ⟨none, none, none, none⟩ ⟨"u", "m", "p", "a", "i", "me"⟩
      (fun _ => TransportResult.exn "boom")
      = (Response.httpError 500 "Missing Telegram credentials", [])
    ∧ notify_order ⟨none, none, none, none⟩ ⟨"u", "m", "p", 1, "i"⟩
      (fun _ => TransportResult.exn "boom")
      = (Response.httpError 500 "Missing Telegram credentials", []) :=
  have h := c1_missing_credentials ⟨none, none, none, none⟩
    (fun _ => TransportResult.exn "boom") ⟨"u", "m", "i", "s"⟩ ⟨"u", "m", "p", "a", "i", true⟩
    ⟨"u", "m", "p", "a", "i", "me"⟩ ⟨"u", "m", "p", "a", "i", "me"⟩ ⟨"u", "m", "p", 1, "i"⟩
  ⟨h.1 (Or.inl rfl), (h.2.1 (Or.inl rfl)).1, (h.2.1 (Or.inl rfl)).2.1,
    (h.2.1 (Or.inl rfl)).2.2, h.2.2 (Or.inl rfl)⟩

/-- C2: for each of the five endpoints and every well-formed body, the
formatted text contains every field's value as a verbatim substring (the
integer price via its decimal rendering, the boolean via its YES/NO label). -/
theorem c2_format_preservation (d1 : NewUserNotification) (d2 : QRPaymentStarted)
    (d3 : PaymentStarted) (d4 : PaymentTimeEnded) (d5 : OrderNotification) :
    (strContains (newUserText d1) d1.username = true
      ∧ strContains (newUserText d1) d1.mobile = true
      ∧ strContains (newUserText d1) d1.ip = true
      ∧ strContains (newUserText d1) d1.profile_status = true)
    ∧ (strContains (qrPaymentText d2) d2.username = true
      ∧ strContains (qrPaymentText d2) d2.mobile = true
      ∧ strContains (qrPaymentText d2) d2.package = true
      ∧ strContains (qrPaymentText d2) d2.amount = true
      ∧ strContains (qrPaymentText d2) d2.ip = true
      ∧ strContains (qrPaymentText d2) (if d2.is_special then "YES" else "NO") = true)
    ∧ (strContains (paymentStartedText d3) d3.username = true
      ∧ strContains (paymentStartedText d3) d3.mobile = true
      ∧ strContains (paymentStartedText d3) d3.package = true
      ∧ strContains (paymentStartedText d3) d3.amount = true
      ∧ strContains (paymentStartedText d3) d3.method = true
      ∧ strContains (paymentStartedText d3) d3.ip = true)
    ∧ (strContains (paymentTimeEndedText d4) d4.username = true
      ∧ strContains (paymentTimeEndedText d4) d4.mobile = true
      ∧ strContains (paymentTimeEndedText d4) d4.package = true
      ∧ strContains (paymentTimeEndedText d4) d4.amount = true
      ∧ strContains (paymentTimeEndedText d4) d4.method = true
      ∧ strContains (paymentTimeEndedText d4) d4.ip = true)
    ∧ (strContains (orderText d5) d5.username = true
      ∧ strContains (orderText d5) d5.mobile = true
      ∧ strContains (orderText d5) d5.package = true
      ∧ strContains (orderText d5) (toString d5.price) = true
      ∧ strContains (orderText d5) d5.ip = true) := by
  refine ⟨?_, ?_, ?_, ?_, ?_⟩
  · unfold newUserText
    exact ⟨strContains_prepend _ (strContains_here _ _),
      strContains_prepend _ (strContains_prepend _ (strContains_prepend _ (strContains_here _ _))),
      strContains_prepend _ (strContains_prepend _ (strContains_prepend _ (strContains_prepend _
        (strContains_prepend _ (strContains_here _ _))))),
      strContains_prepend _ (strContains_prepend _ (strContains_prepend _ (strContains_prepend _
        (strContains_prepend _ (strContains_prepend _ (strContains_prepend _ (strContains_self _)))))))⟩
  · unfold qrPaymentText
    exact ⟨strContains_prepend _ (strContains_pyOr_head _ _),
      strContains_prepend _ (strContains_prepend _ (strContains_prepend _ (strContains_pyOr_head _ _))),
      strContains_prepend _ (strContains_prepend _ (strContains_prepend _ (strContains_prepend _
        (strContains_prepend _ (strContains_here _ _))))),
      strContains_prepend _ (strContains_prepend _ (strContains_prepend _ (strContains_prepend _
        (strContains_prepend _ (strContains_prepend _ (strContains_prepend _ (strContains_here _ _))))))),
      strContains_prepend _ (strContains_prepend _ (strContains_prepend _ (strContains_prepend _
        (strContains_prepend _ (strContains_prepend _ (strContains_prepend _ (strContains_prepend _
          (strContains_prepend _ (strContains_here _ _))))))))),
      strContains_prepend _ (strContains_prepend _ (strContains_prepend _ (strContains_prepend _
        (strContains_prepend _ (strContains_prepend _ (strContains_prepend _ (strContains_prepend _
          (strContains_prepend _ (strContains_prepend _ (strContains_prepend _ (strContains_here _ _)))))))))))⟩
  · unfold paymentStartedText
    exact ⟨strContains_prepend _ (strContains_here _ _),
      strContains_prepend _ (strContains_prepend _ (strContains_prepend _ (strContains_pyOr_head _ _))),
      strContains_prepend _ (strContains_prepend _ (strContains_prepend _ (strContains_prepend _
        (strContains_prepend _ (strContains_here _ _))))),
      strContains_prepend _ (strContains_prepend _ (strContains_prepend _ (strContains_prepend _
        (strContains_prepend _ (strContains_prepend _ (strContains_prepend _ (strContains_here _ _))))))),
      strContains_prepend _ (strContains_prepend _ (strContains_prepend _ (strContains_prepend _
        (strContains_prepend _ (strContains_prepend _ (strContains_prepend _ (strContains_prepend _
          (strContains_prepend _ (strContains_here _ _))))))))),
      strContains_prepend _ (strContains_prepend _ (strContains_prepend _ (strContains_prepend _
        (strContains_prepend _ (strContains_prepend _ (strContains_prepend _ (strContains_prepend _
          (strContains_prepend _ (strContains_prepend _ (strContains_prepend _ (strContains_here _ _)))))))))))⟩
  · unfold paymentTimeEndedText
    exact ⟨strContains_prepend _ (strContains_here _ _),
      strContains_prepend _ (strContains_prepend _ (strContains_prepend _ (strContains_pyOr_head _ _))),
      strContains_prepend _ (strContains_prepend _ (strContains_prepend _ (strContains_prepend _
        (strContains_prepend _ (strContains_here _ _))))),
      strContains_prepend _ (strContains_prepend _ (strContains_prepend _ (strContains_prepend _
        (strContains_prepend _ (strContains_prepend _ (strContains_prepend _ (strContains_here _ _))))))),
      strContains_prepend _ (strContains_prepend _ (strContains_prepend _ (strContains_prepend _
        (strContains_prepend _ (strContains_prepend _ (strContains_prepend _ (strContains_prepend _
          (strContains_prepend _ (strContains_here _ _))))))))),
      strContains_prepend _ (strContains_prepend _ (strContains_prepend _ (strContains_prepend _
        (strContains_prepend _ (strContains_prepend _ (strContains_prepend _ (strContains_prepend _
          (strContains_prepend _ (strContains_prepend _ (strContains_prepend _ (strContains_here _ _)))))))))))⟩
  · unfold orderText
    exact ⟨strContains_prepend _ (strContains_here _ _),
      strContains_prepend _ (strContains_prepend _ (strContains_prepend _ (strContains_pyOr_head _ _))),
      strContains_prepend _ (strContains_prepend _ (strContains_prepend _ (strContains_prepend _
        (strContains_prepend _ (strContains_here _ _))))),
      strContains_prepend _ (strContains_prepend _ (strContains_prepend _ (strContains_prepend _
        (strContains_prepend _ (strContains_prepend _ (strContains_prepend _ (strContains_here _ _))))))),
      strContains_prepend _ (strContains_prepend _ (strContains_prepend _ (strContains_prepend _
        (strContains_prepend _ (strContains_prepend _ (strContains_prepend _ (strContains_prepend _
          (strContains_prepend _ (strContains_self _)))))))))⟩

/-- C3: for every endpoint, if the outbound call answers a non-2xx status,
the endpoint responds 502 and the detail carries the upstream body text
verbatim ("Telegram API error: " followed by the upstream text). -/
theorem c3_upstream_error (cfg : Config)
    (d1 : NewUserNotification) (d2 : QRPaymentStarted) (d3 : PaymentStarted)
    (d4 : PaymentTimeEnded) (d5 : OrderNotification)
    (st : Nat) (bt : String) (bj : Json) (hst : ¬ (200 ≤ st ∧ st < 300))
    (hn : truthy cfg.BOT_TOKEN_NEW_USER = true) (hq : truthy cfg.BOT_TOKEN_QR = true)
    (ho : truthy cfg.BOT_TOKEN_ORDER = true) (hc : truthy cfg.CHAT_ID = true) :
    (notify_new_user cfg d1 (fun _ => TransportResult.response st bt bj)).1
        = Response.httpError 502 ("Telegram API error: " ++ bt)
    ∧ (notify_qr_payment_started cfg d2 (fun _ => TransportResult.response st bt bj)).1
        = Response.httpError 502 ("Telegram API error: " ++ bt)
    ∧ (notify_payment_started cfg d3 (fun _ => TransportResult.response st bt bj)).1
        = Response.httpError 502 ("Telegram API error: " ++ bt)
    ∧ (notify_payment_time_ended cfg d4 (fun _ => TransportResult.response st bt bj)).1
        = Response.httpError 502 ("Telegram API error: " ++ bt)
    ∧ (notify_order cfg d5 (fun _ => TransportResult.response st bt bj)).1
        = Response.httpError 502 ("Telegram API error: " ++ bt)
    ∧ strContains ("Telegram API error: " ++ bt) bt = true := by
  refine ⟨?_, ?_, ?_, ?_, ?_, strContains_prepend _ (strContains_self bt)⟩
  · unfold notify_new_user send_telegram
    rw [if_neg (by simp [hn, hc])]
    simp [wrapResult, hst]
  · unfold notify_qr_payment_started send_telegram
    rw [if_neg (by simp [hq, hc])]
    simp [wrapResult, hst]
  · unfold notify_payment_started send_telegram
    rw [if_neg (by simp [hq, hc])]
    simp [wrapResult, hst]
  · unfold notify_payment_time_ended send_telegram
    rw [if_neg (by simp [hq, hc])]
    simp [wrapResult, hst]
  · unfold notify_order send_telegram
    rw [if_neg (by simp [ho, hc])]
    simp [wrapResult, hst]

/-- Witness for C3: a 404 upstream answer with body "nf" yields 502 with the
upstream text embedded, for a fully configured process. -/
theorem c3_upstream_error_witness :
    (¬ (200 ≤ 404 ∧ 404 < 300))
    ∧ (notify_order ⟨some "A", some "Q", some "O", some "C"⟩ ⟨"u", "m", "p", 1, "i"⟩
        (fun _ => TransportResult.response 404 "nf" Json.null)).1
        = Response.httpError 502 ("Telegram API error: " ++ "nf") :=
  ⟨by decide,
    (c3_upstream_error ⟨some "A", some "Q", some "O", some "C"⟩ ⟨"u", "m", "i", "s"⟩
      ⟨"u", "m", "p", "a", "i", true⟩ ⟨"u", "m", "p", "a", "i", "me"⟩
      ⟨"u", "m", "p", "a", "i", "me"⟩ ⟨"u", "m", "p", 1, "i"⟩
      404 "nf" Json.null (by decide) rfl rfl rfl rfl).2.2.2.2.1⟩

/-- Counterexample to C4: the process reads three bot-token environment
variables, not four, and three endpoints (qr-payment-started,
payment-started, payment-time-ended) answer to the same single token: with
only BOT_TOKEN_QR and CHAT_ID set, all three succeed while new-user and
order fail for missing credentials. -/
theorem c4_counterexample :
    botTokenEnvKeys.length = 3
    ∧ (notify_qr_payment_started
        (loadConfig (fun k => if k == "BOT_TOKEN_QR" then some "Q" else if k == "CHAT_ID" then some "C" else none))
        ⟨"u", "m", "p", "a", "i", true⟩ (fun _ => TransportResult.response 200 "" Json.null)).1
        = Response.ok (successBody Json.null)
    ∧ (notify_payment_started
        (loadConfig (fun k => if k == "BOT_TOKEN_QR" then some "Q" else if k == "CHAT_ID" then some "C" else none))
        ⟨"u", "m", "p", "a", "i", "me"⟩ (fun _ => TransportResult.response 200 "" Json.null)).1
        = Response.ok (successBody Json.null)
    ∧ (notify_payment_time_ended
        (loadConfig (fun k => if k == "BOT_TOKEN_QR" then some "Q" else if k == "CHAT_ID" then some "C" else none))
        ⟨"u", "m", "p", "a", "i", "me"⟩ (fun _ => TransportResult.response 200 "" Json.null)).1
        = Response.ok (successBody Json.null)
    ∧ (notify_new_user
        (loadConfig (fun k => if k == "BOT_TOKEN_QR" then some "Q" else if k == "CHAT_ID" then some "C" else none))
        ⟨"u", "m", "i", "s"⟩ (fun _ => TransportResult.response 200 "" Json.null)).1
        = Response.httpError 500 "Missing Telegram credentials"
    ∧ (notify_order
        (loadConfig (fun k => if k == "BOT_TOKEN_QR" then some "Q" else if k == "CHAT_ID" then some "C" else none))
        ⟨"u", "m", "p", 1, "i"⟩ (fun _ => TransportResult.response 200 "" Json.null)).1
        = Response.httpError 500 "Missing Telegram credentials" :=
  ⟨rfl, rfl, rfl, rfl, rfl, rfl⟩

/-- C4 (amended): the configuration consists of three bot-credential tokens
read once at startup (BOT_TOKEN_NEW_USER, BOT_TOKEN_QR, BOT_TOKEN_ORDER)
plus one destination-chat identifier; new-user uses the first, order the
third, and the three payment-family endpoints (qr-payment-started,
payment-started, payment-time-ended) all share BOT_TOKEN_QR, as the probed
outbound URL of each endpoint shows. -/
theorem c4_three_tokens (tn tq to2 c : String)
    (hn : tn ≠ "") (hq : tq ≠ "") (ho : to2 ≠ "") (hc : c ≠ "") :
    botTokenEnvKeys = ["BOT_TOKEN_NEW_USER", "BOT_TOKEN_QR", "BOT_TOKEN_ORDER"]
    ∧ (notify_new_user ⟨some tn, some tq, some to2, some c⟩ ⟨"u", "m", "i", "s"⟩ probeFull).1
        = Response.ok (successBody (Json.obj
            [("url", Json.str ("https://api.telegram.org/bot" ++ tn ++ "/sendMessage")),
             ("chat_id", Json.str c), ("parse_mode", Json.str "HTML"),
             ("text", Json.str (newUserText ⟨"u", "m", "i", "s"⟩))]))
    ∧ (notify_qr_payment_started ⟨some tn, some tq, some to2, some c⟩
        ⟨"u", "m", "p", "a", "i", true⟩ probeFull).1
        = Response.ok (successBody (Json.obj
            [("url", Json.str ("https://api.telegram.org/bot" ++ tq ++ "/sendMessage")),
             ("chat_id", Json.str c), ("parse_mode", Json.str "HTML"),
             ("text", Json.str (qrPaymentText ⟨"u", "m", "p", "a", "i", true⟩))]))
    ∧ (notify_payment_started ⟨some tn, some tq, some to2, some c⟩
        ⟨"u", "m", "p", "a", "i", "me"⟩ probeFull).1
        = Response.ok (successBody (Json.obj
            [("url", Json.str ("https://api.telegram.org/bot" ++ tq ++ "/sendMessage")),
             ("chat_id", Json.str c), ("parse_mode", Json.str "HTML"),
             ("text", Json.str (paymentStartedText ⟨"u", "m", "p", "a", "i", "me"⟩))]))
    ∧ (notify_payment_time_ended ⟨some tn, some tq, some to2, some c⟩
        ⟨"u", "m", "p", "a", "i", "me"⟩ probeFull).1
        = Response.ok (successBody (Json.obj
            [("url", Json.str ("https://api.telegram.org/bot" ++ tq ++ "/sendMessage")),
             ("chat_id", Json.str c), ("parse_mode", Json.str "HTML"),
             ("text", Json.str (paymentTimeEndedText ⟨"u", "m", "p", "a", "i", "me"⟩))]))
    ∧ (notify_order ⟨some tn, some tq, some to2, some c⟩ ⟨"u", "m", "p", 1, "i"⟩ probeFull).1
        = Response.ok (successBody (Json.obj
            [("url", Json.str ("https://api.telegram.org/bot" ++ to2 ++ "/sendMessage")),
             ("chat_id", Json.str c), ("parse_mode", Json.str "HTML"),
             ("text", Json.str (orderText ⟨"u", "m", "p", 1, "i"⟩))])) := by
  refine ⟨rfl, ?_, ?_, ?_, ?_, ?_⟩
  · unfold notify_new_user send_telegram
    rw [if_neg (by simp [truthy, hn, hc])]
    simp [wrapResult, probeFull]
  · unfold notify_qr_payment_started send_telegram
    rw [if_neg (by simp [truthy, hq, hc])]
    simp [wrapResult, probeFull]
  · unfold notify_payment_started send_telegram
    rw [if_neg (by simp [truthy, hq, hc])]
    simp [wrapResult, probeFull]
  · unfold notify_payment_time_ended send_telegram
    rw [if_neg (by simp [truthy, hq, hc])]
    simp [wrapResult, probeFull]
  · unfold notify_order send_telegram
    rw [if_neg (by simp [truthy, ho, hc])]
    simp [wrapResult, probeFull]

/-- Witness for C4 (amended): concrete distinct tokens, showing qr-payment
and payment-time-ended both send through the BOT_TOKEN_QR url. -/
theorem c4_three_tokens_witness :
    ("A" ≠ "" ∧ "Q" ≠ "" ∧ "O" ≠ "" ∧ "C" ≠ "")
    ∧ (notify_qr_payment_started ⟨some "A", some "Q", some "O", some "C"⟩
        ⟨"u", "m", "p", "a", "i", true⟩ probeFull).1
        = Response.ok (successBody (Json.obj
            [("url", Json.str ("https://api.telegram.org/bot" ++ "Q" ++ "/sendMessage")),
             ("chat_id", Json.str "C"), ("parse_mode", Json.str "HTML"),
             ("text", Json.str (qrPaymentText ⟨"u", "m", "p", "a", "i", true⟩))]))
    ∧ (notify_payment_time_ended ⟨some "A", some "Q", some "O", some "C"⟩
        ⟨"u", "m", "p", "a", "i", "me"⟩ probeFull).1
        = Response.ok (successBody (Json.obj
            [("url", Json.str ("https://api.telegram.org/bot" ++ "Q" ++ "/sendMessage")),
             ("chat_id", Json.str "C"), ("parse_mode", Json.str "HTML"),
             ("text", Json.str (paymentTimeEndedText ⟨"u", "m", "p", "a", "i", "me"⟩))])) :=
  have h := c4_three_tokens "A" "Q" "O" "C" (by decide) (by decide) (by decide) (by decide)
  ⟨⟨by decide, by decide, by decide, by decide⟩, h.2.2.1, h.2.2.2.2.1⟩

/-- Counterexample to C5: `mobile` is a required field of every model, so a
body that omits it is rejected by validation (HTTP 422) before any text is
rendered; no fallback text is produced for an omitted mobile. -/
theorem c5_counterexample :
    parseQRPaymentStarted
      [("username", Json.str "alice"), ("package", Json.str "Gold"),
       ("amount", Json.str "499"), ("ip", Json.str "1.2.3.4"), ("is_special", Json.bool true)] = none
    ∧ handle_qr_payment_started_raw ⟨some "T", some "T", some "T", some "C"⟩
      [("username", Json.str "alice"), ("package", Json.str "Gold"),
       ("amount", Json.str "499"), ("ip", Json.str "1.2.3.4"), ("is_special", Json.bool true)]
      (fun _ => TransportResult.response 200 "" Json.null)
      = (Response.validationError, []) := ⟨rfl, rfl⟩

/-- C5 (amended): for the qr-payment-started, payment-started,
payment-time-ended and order endpoints, if the mobile field is the empty
string the rendered text contains the literal "Not Provided"; for
qr-payment-started an empty username is rendered as "Unknown".  (An omitted
mobile is instead rejected by validation with 422 before rendering.) -/
theorem c5_empty_fallbacks (u m p a i me : String) (sp : Bool) (pr : Int) :
    strContains (qrPaymentText ⟨u, "", p, a, i, sp⟩) "Not Provided" = true
    ∧ strContains (qrPaymentText ⟨"", m, p, a, i, sp⟩) "Unknown" = true
    ∧ strContains (paymentStartedText ⟨u, "", p, a, i, me⟩) "Not Provided" = true
    ∧ strContains (paymentTimeEndedText ⟨u, "", p, a, i, me⟩) "Not Provided" = true
    ∧ strContains (orderText ⟨u, "", p, pr, i⟩) "Not Provided" = true := by
  have epy : ∀ f : String, pyOr "" f = f := fun f => rfl
  unfold qrPaymentText paymentStartedText paymentTimeEndedText orderText
  simp only [epy]
  exact ⟨strContains_prepend _ (strContains_prepend _ (strContains_prepend _ (strContains_here _ _))),
    strContains_prepend _ (strContains_here _ _),
    strContains_prepend _ (strContains_prepend _ (strContains_prepend _ (strContains_here _ _))),
    strContains_prepend _ (strContains_prepend _ (strContains_prepend _ (strContains_here _ _))),
    strContains_prepend _ (strContains_prepend _ (strContains_prepend _ (strContains_here _ _)))⟩

/-- Counterexample to C6: a well-formed body whose username itself contains
"YES" makes the rendered text contain "YES" twice, not exactly once. -/
theorem c6_counterexample :
    strCount (qrPaymentText ⟨"YES", "m", "p", "a", "i", true⟩) "YES" = 2 := by
  set_option maxRecDepth 40000 in decide

/-- C6 (amended): provided no rendered field value itself contains the label
("YES" when is_special is true, "NO" when it is false), the qr-payment text
contains that label exactly once. -/
theorem c6_special_label_once (d : QRPaymentStarted)
    (h1 : strCount (pyOr d.username "Unknown") (if d.is_special then "YES" else "NO") = 0)
    (h2 : strCount (pyOr d.mobile "Not Provided") (if d.is_special then "YES" else "NO") = 0)
    (h3 : strCount d.package (if d.is_special then "YES" else "NO") = 0)
    (h4 : strCount d.amount (if d.is_special then "YES" else "NO") = 0)
    (h5 : strCount d.ip (if d.is_special then "YES" else "NO") = 0) :
    strCount (qrPaymentText d) (if d.is_special then "YES" else "NO") = 1 := by
  obtain ⟨u, m, p, a, i, sp⟩ := d
  cases sp
  case false =>
    have g1 : countOcc ['N', 'O'] (pyOr u "Unknown").data = 0 := h1
    have g2 : countOcc ['N', 'O'] (pyOr m "Not Provided").data = 0 := h2
    have g3 : countOcc ['N', 'O'] p.data = 0 := h3
    have g4 : countOcc ['N', 'O'] a.data = 0 := h4
    have g5 : countOcc ['N', 'O'] i.data = 0 := h5
    have e := countOcc_fieldChain ['N', 'O'] (by decide) (by decide) (by decide)
        [((pyOr u "Unknown").data, String.data "</code>\n📱 Mobile: <code>"),
         ((pyOr m "Not Provided").data, String.data "</code>\n📦 Package: <code>"),
         (p.data, String.data "</code>\n💰 Amount: <code>"),
         (a.data, String.data "</code>\n🌐 IP: <code>"),
         (i.data, String.data "</code>\n💎 Special User: <b>"),
         (String.data "NO", String.data "</b>")] (by exact qrTemplatesOk)
    show countOcc ['N', 'O'] (qrPaymentText ⟨u, m, p, a, i, false⟩).data = 1
    rw [qr_data_eq u m p a i "NO" false rfl,
        countOcc_append_snoc ['N', 'O'] (by decide) '>' (by decide) _
          (String.data "📲 <b>QR PAYMENT STARTED 🎉</b>\n👤 Username: <code"),
        e]
    simp only [chainCount]
    rw [g1, g2, g3, g4, g5]
    set_option maxRecDepth 40000 in decide
  case true =>
    have g1 : countOcc ['Y', 'E', 'S'] (pyOr u "Unknown").data = 0 := h1
    have g2 : countOcc ['Y', 'E', 'S'] (pyOr m "Not Provided").data = 0 := h2
    have g3 : countOcc ['Y', 'E', 'S'] p.data = 0 := h3
    have g4 : countOcc ['Y', 'E', 'S'] a.data = 0 := h4
    have g5 : countOcc ['Y', 'E', 'S'] i.data = 0 := h5
    have e := countOcc_fieldChain ['Y', 'E', 'S'] (by decide) (by decide) (by decide)
        [((pyOr u "Unknown").data, String.data "</code>\n📱 Mobile: <code>"),
         ((pyOr m "Not Provided").data, String.data "</code>\n📦 Package: <code>"),
         (p.data, String.data "</code>\n💰 Amount: <code>"),
         (a.data, String.data "</code>\n🌐 IP: <code>"),
         (i.data, String.data "</code>\n💎 Special User: <b>"),
         (String.data "YES", String.data "</b>")] (by exact qrTemplatesOk)
    show countOcc ['Y', 'E', 'S'] (qrPaymentText ⟨u, m, p, a, i, true⟩).data = 1
    rw [qr_data_eq u m p a i "YES" true rfl,
        countOcc_append_snoc ['Y', 'E', 'S'] (by decide) '>' (by decide) _
          (String.data "📲 <b>QR PAYMENT STARTED 🎉</b>\n👤 Username: <code"),
        e]
    simp only [chainCount]
    rw [g1, g2, g3, g4, g5]
    set_option maxRecDepth 40000 in decide

set_option maxRecDepth 100000 in
/-- Witness for C6 (amended): an ordinary special body renders "YES" exactly
once. -/
theorem c6_special_label_once_witness :
    strCount (pyOr "alice" "Unknown") (if true then "YES" else "NO") = 0
    ∧ strCount (qrPaymentText ⟨"alice", "9111", "Gold", "499", "1.2.3.4", true⟩)
        (if true then "YES" else "NO") = 1 :=
  ⟨by decide,
    c6_special_label_once ⟨"alice", "9111", "Gold", "499", "1.2.3.4", true⟩
      (by decide) (by decide) (by decide) (by decide) (by decide)⟩

/-- C7: for every endpoint, when the outbound call answers a 2xx status
with JSON body bj, the endpoint returns 200 with exactly
`{success: true, telegram_response: bj}`. -/
theorem c7_success_payload (cfg : Config)
    (d1 : NewUserNotification) (d2 : QRPaymentStarted) (d3 : PaymentStarted)
    (d4 : PaymentTimeEnded) (d5 : OrderNotification)
    (st : Nat) (bt : String) (bj : Json) (hst : 200 ≤ st ∧ st < 300)
    (hn : truthy cfg.BOT_TOKEN_NEW_USER = true) (hq : truthy cfg.BOT_TOKEN_QR = true)
    (ho : truthy cfg.BOT_TOKEN_ORDER = true) (hc : truthy cfg.CHAT_ID = true) :
    (notify_new_user cfg d1 (fun _ => TransportResult.response st bt bj)).1
        = Response.ok (successBody bj)
    ∧ (notify_qr_payment_started cfg d2 (fun _ => TransportResult.response st bt bj)).1
        = Response.ok (successBody bj)
    ∧ (notify_payment_started cfg d3 (fun _ => TransportResult.response st bt bj)).1
        = Response.ok (successBody bj)
    ∧ (notify_payment_time_ended cfg d4 (fun _ => TransportResult.response st bt bj)).1
        = Response.ok (successBody bj)
    ∧ (notify_order cfg d5 (fun _ => TransportResult.response st bt bj)).1
        = Response.ok (successBody bj) := by
  refine ⟨?_, ?_, ?_, ?_, ?_⟩
  · unfold notify_new_user send_telegram
    rw [if_neg (by simp [hn, hc])]
    simp [wrapResult, hst]
  · unfold notify_qr_payment_started send_telegram
    rw [if_neg (by simp [hq, hc])]
    simp [wrapResult, hst]
  · unfold notify_payment_started send_telegram
    rw [if_neg (by simp [hq, hc])]
    simp [wrapResult, hst]
  · unfold notify_payment_time_ended send_telegram
    rw [if_neg (by simp [hq, hc])]
    simp [wrapResult, hst]
  · unfold notify_order send_telegram
    rw [if_neg (by simp [ho, hc])]
    simp [wrapResult, hst]

/-- Witness for C7: a 200 upstream answer is wrapped as
`{success: true, telegram_response: <body>}` for a configured process. -/
theorem c7_success_payload_witness :
    (200 ≤ 200 ∧ 200 < 300)
    ∧ (notify_new_user ⟨some "A", some "Q", some "O", some "C"⟩ ⟨"u", "m", "i", "s"⟩
        (fun _ => TransportResult.response 200 "ok" (Json.obj [("ok", Json.bool true)]))).1
        = Response.ok (successBody (Json.obj [("ok", Json.bool true)])) :=
  ⟨by decide,
    (c7_success_payload ⟨some "A", some "Q", some "O", some "C"⟩ ⟨"u", "m", "i", "s"⟩
      ⟨"u", "m", "p", "a", "i", true⟩ ⟨"u", "m", "p", "a", "i", "me"⟩
      ⟨"u", "m", "p", "a", "i", "me"⟩ ⟨"u", "m", "p", 1, "i"⟩
      200 "ok" (Json.obj [("ok", Json.bool true)]) (by decide) rfl rfl rfl rfl).1⟩

/-- C8: GET /health always answers 200 with exactly
`{"status": "ok", "service": "Telegram Notifier"}`, for every configuration
and transport, and attempts no outbound call. -/
theorem c8_health_fixed (cfg : Config) (t : TelegramRequest → TransportResult) :
    health_check cfg t
      = (Response.ok (Json.obj [("status", Json.str "ok"), ("service", Json.str "Telegram Notifier")]),
         []) := rfl

/-- C9: for identical field values, the payment-started and
payment-time-ended texts are identical except for their first (header)
line, and both endpoints send through the same bot token (BOT_TOKEN_QR),
the same chat destination and the same "HTML" rendering mode, as the probed
outbound requests show. -/
theorem c9_payment_pair (tn to2 : Option String) (tq c : String)
    (htq : tq ≠ "") (hc : c ≠ "") (u m p a i me : String) :
    paymentStartedText ⟨u, m, p, a, i, me⟩
      = "💳 <b>New UPI PAYMENT STARTED 🎉</b>" ++ paymentSharedTail u m p a i me
    ∧ paymentTimeEndedText ⟨u, m, p, a, i, me⟩
      = "⚠️ <b>PAYMENT TIME ENDED</b>" ++ paymentSharedTail u m p a i me
    ∧ strContains "💳 <b>New UPI PAYMENT STARTED 🎉</b>" "\n" = false
    ∧ strContains "⚠️ <b>PAYMENT TIME ENDED</b>" "\n" = false
    ∧ (paymentSharedTail u m p a i me).data.head? = some '\n'
    ∧ notify_payment_started ⟨tn, some tq, to2, some c⟩ ⟨u, m, p, a, i, me⟩ probeFull
      = (Response.ok (successBody (Json.obj
          [("url", Json.str ("https://api.telegram.org/bot" ++ tq ++ "/sendMessage")),
           ("chat_id", Json.str c), ("parse_mode", Json.str "HTML"),
           ("text", Json.str (paymentStartedText ⟨u, m, p, a, i, me⟩))])),
         [⟨"https://api.telegram.org/bot" ++ tq ++ "/sendMessage", c,
           paymentStartedText ⟨u, m, p, a, i, me⟩, "HTML"⟩])
    ∧ notify_payment_time_ended ⟨tn, some tq, to2, some c⟩ ⟨u, m, p, a, i, me⟩ probeFull
      = (Response.ok (successBody (Json.obj
          [("url", Json.str ("https://api.telegram.org/bot" ++ tq ++ "/sendMessage")),
           ("chat_id", Json.str c), ("parse_mode", Json.str "HTML"),
           ("text", Json.str (paymentTimeEndedText ⟨u, m, p, a, i, me⟩))])),
         [⟨"https://api.telegram.org/bot" ++ tq ++ "/sendMessage", c,
           paymentTimeEndedText ⟨u, m, p, a, i, me⟩, "HTML"⟩]) := by
  refine ⟨?_, ?_, by decide, by decide, rfl, ?_, ?_⟩
  · apply strExt
    simp [paymentStartedText, paymentSharedTail, strData_append]
  · apply strExt
    simp [paymentTimeEndedText, paymentSharedTail, strData_append]
  · unfold notify_payment_started send_telegram
    rw [if_neg (by simp [truthy, htq, hc])]
    simp [wrapResult, probeFull, truthy]
  · unfold notify_payment_time_ended send_telegram
    rw [if_neg (by simp [truthy, htq, hc])]
    simp [wrapResult, probeFull, truthy]

/-- Witness for C9: at concrete credentials and fields, the two texts share
everything after their distinct header lines. -/
theorem c9_payment_pair_witness :
    ("QQ" ≠ "" ∧ "CC" ≠ "")
    ∧ paymentStartedText ⟨"u", "m", "p", "a", "i", "me"⟩
      = "💳 <b>New UPI PAYMENT STARTED 🎉</b>" ++ paymentSharedTail "u" "m" "p" "a" "i" "me"
    ∧ paymentTimeEndedText ⟨"u", "m", "p", "a", "i", "me"⟩
      = "⚠️ <b>PAYMENT TIME ENDED</b>" ++ paymentSharedTail "u" "m" "p" "a" "i" "me" :=
  have h := c9_payment_pair none none "QQ" "CC" (by decide) (by decide) "u" "m" "p" "a" "i" "me"
  ⟨⟨by decide, by decide⟩, h.1, h.2.1⟩

/-- C10: the new-user endpoint applies no fallback placeholder: an empty
mobile (or username) is rendered as the label followed directly by the next
line, and the text contains neither "Not Provided" nor "Unknown" for such a
body with placeholder-free other fields. -/
theorem c10_new_user_no_fallback (u m ip st : String) :
    newUserText ⟨u, "", ip, st⟩
      = "🔔 New User Submitted\n👤 Username: " ++
          (u ++ ("\n📱 Mobile: \n🌐 IP: " ++ (ip ++ ("\n📊 Status: " ++ st))))
    ∧ newUserText ⟨"", m, ip, st⟩
      = "🔔 New User Submitted\n👤 Username: \n📱 Mobile: " ++
          (m ++ ("\n🌐 IP: " ++ (ip ++ ("\n📊 Status: " ++ st))))
    ∧ strContains (newUserText ⟨"x", "", "y", "z"⟩) "Not Provided" = false
    ∧ strContains (newUserText ⟨"x", "", "y", "z"⟩) "Unknown" = false := by
  refine ⟨?_, ?_, by decide, by decide⟩ <;> (apply strExt; simp [newUserText, strData_append])

end TNotif
